import Mathlib

/-!
Verification of the `midix_synth` repository: a shallow embedding of the
settings-validation module (`src/synthesizer/settings.rs`), of the test
comparison harness (`src/tests/utils.rs`), and of the spec-described
sustain-pedal channel semantics, together with theorems settling the
frozen claims about them.

Machine integers: `sample_rate` is a Rust `i32`, embedded as `Int`
(validation only compares it against constants well inside the i32 range,
so no overflow arithmetic occurs); `block_size` and `maximum_polyphony`
are Rust `usize`, embedded as `Nat`.  Audio samples are Rust `f32`; the
comparison-harness claims are about which buffers the harness consults,
not about rounding, so samples are embedded as exact rationals.
-/

/-- The error enum referenced by `settings.rs`.  The enum's own definition
is not under `src/`; its constructors are taken from the three variants
`settings.rs` constructs plus the spec's error-kind list
(`SoundFontInvalid(detail)`, `RenderBufferMismatch`). -/
inductive SynthesizerError where
  | SampleRateOutOfRange (value : Int)
  | BlockSizeOutOfRange (value : Nat)
  | MaximumPolyphonyOutOfRange (value : Nat)
  | SoundFontInvalid (detail : String)
  | RenderBufferMismatch
deriving Repr, DecidableEq

/-- `SynthesizerSettings` from `src/synthesizer/settings.rs`. -/
structure SynthesizerSettings where
  sample_rate : Int
  block_size : Nat
  maximum_polyphony : Nat
  enable_reverb_and_chorus : Bool
deriving Repr, DecidableEq

/-- `impl Default for SynthesizerSettings` (`settings.rs:16-25`). -/
def SynthesizerSettings.default : SynthesizerSettings :=
  { sample_rate := 44100
    block_size := 64
    maximum_polyphony := 64
    enable_reverb_and_chorus := true }

/-- `SynthesizerSettings::new` (`settings.rs:33-38`): the given sample
rate over the default for every other field. -/
def SynthesizerSettings.new (sample_rate : Int) : SynthesizerSettings :=
  { SynthesizerSettings.default with sample_rate := sample_rate }

/-- `SynthesizerSettings::check_sample_rate` (`settings.rs:48-54`):
`(16_000..=192_000).contains(&value)`. -/
def SynthesizerSettings.check_sample_rate (value : Int) :
    Except SynthesizerError Unit :=
  if ¬ (16000 ≤ value ∧ value ≤ 192000) then
    .error (.SampleRateOutOfRange value)
  else
    .ok ()

/-- `SynthesizerSettings::check_block_size` (`settings.rs:56-62`):
`(8..=1024).contains(&value)`. -/
def SynthesizerSettings.check_block_size (value : Nat) :
    Except SynthesizerError Unit :=
  if ¬ (8 ≤ value ∧ value ≤ 1024) then
    .error (.BlockSizeOutOfRange value)
  else
    .ok ()

/-- `SynthesizerSettings::check_maximum_polyphony` (`settings.rs:64-70`):
`(8..=256).contains(&value)`. -/
def SynthesizerSettings.check_maximum_polyphony (value : Nat) :
    Except SynthesizerError Unit :=
  if ¬ (8 ≤ value ∧ value ≤ 256) then
    .error (.MaximumPolyphonyOutOfRange value)
  else
    .ok ()

/-- `SynthesizerSettings::validate` (`settings.rs:40-46`): the three
checks in order, short-circuiting on the first error via `?`. -/
def SynthesizerSettings.validate (s : SynthesizerSettings) :
    Except SynthesizerError Unit := do
  SynthesizerSettings.check_sample_rate s.sample_rate
  SynthesizerSettings.check_block_size s.block_size
  SynthesizerSettings.check_maximum_polyphony s.maximum_polyphony

example : SynthesizerSettings.default.validate = .ok () := rfl

example : (SynthesizerSettings.new 0).validate =
    .error (.SampleRateOutOfRange 0) := rfl

example : ({ SynthesizerSettings.default with block_size := 4 }).validate =
    .error (.BlockSizeOutOfRange 4) := rfl

/-- Characterization of `validate`: the three checks run in order and the
first failure wins. -/
theorem SynthesizerSettings.validate_eq (s : SynthesizerSettings) :
    s.validate =
      if ¬ (16000 ≤ s.sample_rate ∧ s.sample_rate ≤ 192000) then
        .error (.SampleRateOutOfRange s.sample_rate)
      else if ¬ (8 ≤ s.block_size ∧ s.block_size ≤ 1024) then
        .error (.BlockSizeOutOfRange s.block_size)
      else if ¬ (8 ≤ s.maximum_polyphony ∧ s.maximum_polyphony ≤ 256) then
        .error (.MaximumPolyphonyOutOfRange s.maximum_polyphony)
      else .ok () := by
  simp only [SynthesizerSettings.validate, SynthesizerSettings.check_sample_rate,
    SynthesizerSettings.check_block_size, SynthesizerSettings.check_maximum_polyphony]
  split_ifs <;> rfl

/-- C2: `validate` fails with `SampleRateOutOfRange` carrying the
offending value if and only if `sample_rate` lies outside the inclusive
range `[16000, 192000]`; every in-range `sample_rate` (with the other
settings in their documented ranges) passes validation. -/
theorem claim_C2_sample_rate_validation (s : SynthesizerSettings) :
    ((∃ v, s.validate = .error (.SampleRateOutOfRange v)) ↔
       ¬ (16000 ≤ s.sample_rate ∧ s.sample_rate ≤ 192000)) ∧
    (¬ (16000 ≤ s.sample_rate ∧ s.sample_rate ≤ 192000) →
       s.validate = .error (.SampleRateOutOfRange s.sample_rate)) ∧
    ((16000 ≤ s.sample_rate ∧ s.sample_rate ≤ 192000) →
     (8 ≤ s.block_size ∧ s.block_size ≤ 1024) →
     (8 ≤ s.maximum_polyphony ∧ s.maximum_polyphony ≤ 256) →
       s.validate = .ok ()) := by
  rw [SynthesizerSettings.validate_eq]
  split_ifs with h1 h2 h3 <;> simp_all

/-- C2 witness: both endpoints 16000 and 192000 pass validation with the
other settings at their defaults. -/
theorem claim_C2_sample_rate_validation_witness :
    (SynthesizerSettings.new 16000).validate = .ok () ∧
    (SynthesizerSettings.new 192000).validate = .ok () :=
  ⟨(claim_C2_sample_rate_validation _).2.2 (by decide) (by decide) (by decide),
   (claim_C2_sample_rate_validation _).2.2 (by decide) (by decide) (by decide)⟩

/-- C3: `validate` fails with `BlockSizeOutOfRange` carrying the
offending value if and only if `block_size` lies outside the inclusive
range `[8, 1024]`, the other settings being in their documented ranges
(the `sample_rate` check runs first); every in-range `block_size` then
passes validation. Whenever the result is `BlockSizeOutOfRange`, the
carried value is `block_size` and it really is out of range. -/
theorem claim_C3_block_size_validation (s : SynthesizerSettings) :
    ((∃ v, s.validate = .error (.BlockSizeOutOfRange v)) →
       ¬ (8 ≤ s.block_size ∧ s.block_size ≤ 1024) ∧
       s.validate = .error (.BlockSizeOutOfRange s.block_size)) ∧
    ((16000 ≤ s.sample_rate ∧ s.sample_rate ≤ 192000) →
      ((∃ v, s.validate = .error (.BlockSizeOutOfRange v)) ↔
         ¬ (8 ≤ s.block_size ∧ s.block_size ≤ 1024)) ∧
      ((8 ≤ s.block_size ∧ s.block_size ≤ 1024) →
       (8 ≤ s.maximum_polyphony ∧ s.maximum_polyphony ≤ 256) →
         s.validate = .ok ())) := by
  rw [SynthesizerSettings.validate_eq]
  split_ifs with h1 h2 h3 <;> simp_all

/-- C3 witness: both endpoints 8 and 1024 pass validation with the other
settings at their defaults. -/
theorem claim_C3_block_size_validation_witness :
    ({ SynthesizerSettings.default with block_size := 8 }).validate = .ok () ∧
    ({ SynthesizerSettings.default with block_size := 1024 }).validate = .ok () :=
  ⟨((claim_C3_block_size_validation _).2 (by decide)).2 (by decide) (by decide),
   ((claim_C3_block_size_validation _).2 (by decide)).2 (by decide) (by decide)⟩

/-- C4: `validate` fails with `MaximumPolyphonyOutOfRange` carrying the
offending value if and only if `maximum_polyphony` lies outside the
inclusive range `[8, 256]`, the other settings being in their documented
ranges (the `sample_rate` and `block_size` checks run first); every
in-range `maximum_polyphony` then passes validation. Whenever the result
is `MaximumPolyphonyOutOfRange`, the carried value is
`maximum_polyphony` and it really is out of range. -/
theorem claim_C4_maximum_polyphony_validation (s : SynthesizerSettings) :
    ((∃ v, s.validate = .error (.MaximumPolyphonyOutOfRange v)) →
       ¬ (8 ≤ s.maximum_polyphony ∧ s.maximum_polyphony ≤ 256) ∧
       s.validate = .error (.MaximumPolyphonyOutOfRange s.maximum_polyphony)) ∧
    ((16000 ≤ s.sample_rate ∧ s.sample_rate ≤ 192000) →
     (8 ≤ s.block_size ∧ s.block_size ≤ 1024) →
      ((∃ v, s.validate = .error (.MaximumPolyphonyOutOfRange v)) ↔
         ¬ (8 ≤ s.maximum_polyphony ∧ s.maximum_polyphony ≤ 256)) ∧
      ((8 ≤ s.maximum_polyphony ∧ s.maximum_polyphony ≤ 256) →
         s.validate = .ok ())) := by
  rw [SynthesizerSettings.validate_eq]
  split_ifs with h1 h2 h3 <;> simp_all

/-- C4 witness: both endpoints 8 and 256 pass validation with the other
settings at their defaults. -/
theorem claim_C4_maximum_polyphony_validation_witness :
    ({ SynthesizerSettings.default with maximum_polyphony := 8 }).validate
        = .ok () ∧
    ({ SynthesizerSettings.default with maximum_polyphony := 256 }).validate
        = .ok () :=
  ⟨((claim_C4_maximum_polyphony_validation _).2 (by decide) (by decide)).2
      (by decide),
   ((claim_C4_maximum_polyphony_validation _).2 (by decide) (by decide)).2
      (by decide)⟩

/-- C5: the default settings value has sample_rate 44100, block_size 64,
maximum_polyphony 64 and enable_reverb_and_chorus true, and it passes
validation. -/
theorem claim_C5_default_settings :
    SynthesizerSettings.default.sample_rate = 44100 ∧
    SynthesizerSettings.default.block_size = 64 ∧
    SynthesizerSettings.default.maximum_polyphony = 64 ∧
    SynthesizerSettings.default.enable_reverb_and_chorus = true ∧
    SynthesizerSettings.default.validate = .ok () :=
  ⟨rfl, rfl, rfl, rfl, rfl⟩

/-- C6: validation only ever returns one of the three range errors — never
`SoundFontInvalid` or `RenderBufferMismatch` — and any error it returns is
for a setting that is actually out of range; the
`enable_reverb_and_chorus` flag is never inspected, so flipping it leaves
validation's outcome unchanged. -/
theorem claim_C6_validation_error_shape (s : SynthesizerSettings) :
    (∀ e, s.validate = .error e →
       (e = .SampleRateOutOfRange s.sample_rate ∧
          ¬ (16000 ≤ s.sample_rate ∧ s.sample_rate ≤ 192000)) ∨
       (e = .BlockSizeOutOfRange s.block_size ∧
          ¬ (8 ≤ s.block_size ∧ s.block_size ≤ 1024)) ∨
       (e = .MaximumPolyphonyOutOfRange s.maximum_polyphony ∧
          ¬ (8 ≤ s.maximum_polyphony ∧ s.maximum_polyphony ≤ 256))) ∧
    (∀ b, ({ s with enable_reverb_and_chorus := b }).validate = s.validate) := by
  constructor
  · intro e he
    rw [SynthesizerSettings.validate_eq] at he
    split_ifs at he with h1 h2 h3 <;> simp_all
  · intro b
    rw [SynthesizerSettings.validate_eq, SynthesizerSettings.validate_eq]

/-- C6 witness: at a concretely failing settings value the returned error
is a range error naming the out-of-range setting, and flipping the
reverb/chorus flag on the default settings changes nothing. -/
theorem claim_C6_validation_error_shape_witness :
    ((SynthesizerError.SampleRateOutOfRange 0
        = .SampleRateOutOfRange (SynthesizerSettings.new 0).sample_rate ∧
        ¬ (16000 ≤ (SynthesizerSettings.new 0).sample_rate ∧
           (SynthesizerSettings.new 0).sample_rate ≤ 192000)) ∨
     (SynthesizerError.SampleRateOutOfRange 0
        = .BlockSizeOutOfRange (SynthesizerSettings.new 0).block_size ∧
        ¬ (8 ≤ (SynthesizerSettings.new 0).block_size ∧
           (SynthesizerSettings.new 0).block_size ≤ 1024)) ∨
     (SynthesizerError.SampleRateOutOfRange 0
        = .MaximumPolyphonyOutOfRange (SynthesizerSettings.new 0).maximum_polyphony ∧
        ¬ (8 ≤ (SynthesizerSettings.new 0).maximum_polyphony ∧
           (SynthesizerSettings.new 0).maximum_polyphony ≤ 256))) ∧
    ({ SynthesizerSettings.default with enable_reverb_and_chorus := false }).validate
        = SynthesizerSettings.default.validate :=
  ⟨(claim_C6_validation_error_shape (SynthesizerSettings.new 0)).1
      (.SampleRateOutOfRange 0) rfl,
   (claim_C6_validation_error_shape SynthesizerSettings.default).2 false⟩

/-- C8: when several settings are out of range, `validate` reports the
first failing check in the fixed order sample_rate, block_size,
maximum_polyphony. -/
theorem claim_C8_first_failing_check_wins (s : SynthesizerSettings) :
    (¬ (16000 ≤ s.sample_rate ∧ s.sample_rate ≤ 192000) →
       s.validate = .error (.SampleRateOutOfRange s.sample_rate)) ∧
    ((16000 ≤ s.sample_rate ∧ s.sample_rate ≤ 192000) →
     ¬ (8 ≤ s.block_size ∧ s.block_size ≤ 1024) →
       s.validate = .error (.BlockSizeOutOfRange s.block_size)) ∧
    ((16000 ≤ s.sample_rate ∧ s.sample_rate ≤ 192000) →
     (8 ≤ s.block_size ∧ s.block_size ≤ 1024) →
     ¬ (8 ≤ s.maximum_polyphony ∧ s.maximum_polyphony ≤ 256) →
       s.validate = .error (.MaximumPolyphonyOutOfRange s.maximum_polyphony)) := by
  rw [SynthesizerSettings.validate_eq]
  split_ifs with h1 h2 h3 <;> simp_all

/-- C8 witness: with sample_rate = 0 and block_size = 0 both out of range,
the result is `SampleRateOutOfRange(0)`, which is not a
`BlockSizeOutOfRange` error. -/
theorem claim_C8_first_failing_check_wins_witness :
    ({ sample_rate := 0, block_size := 0, maximum_polyphony := 64,
       enable_reverb_and_chorus := true } : SynthesizerSettings).validate
      = .error (.SampleRateOutOfRange 0) ∧
    SynthesizerError.SampleRateOutOfRange 0 ≠ .BlockSizeOutOfRange 0 :=
  ⟨(claim_C8_first_failing_check_wins _).1 (by decide), by decide⟩

/-- C10: `SynthesizerSettings.new sr` sets sample_rate to `sr` and every
other field to its default, performing no range check itself; an
out-of-range `sr` is only rejected later, by `validate`. -/
theorem claim_C10_new_fields (sr : Int) :
    (SynthesizerSettings.new sr).sample_rate = sr ∧
    (SynthesizerSettings.new sr).block_size = 64 ∧
    (SynthesizerSettings.new sr).maximum_polyphony = 64 ∧
    (SynthesizerSettings.new sr).enable_reverb_and_chorus = true ∧
    (SynthesizerSettings.new sr).block_size
        = SynthesizerSettings.default.block_size ∧
    (SynthesizerSettings.new sr).maximum_polyphony
        = SynthesizerSettings.default.maximum_polyphony ∧
    (SynthesizerSettings.new sr).enable_reverb_and_chorus
        = SynthesizerSettings.default.enable_reverb_and_chorus ∧
    (¬ (16000 ≤ sr ∧ sr ≤ 192000) →
       (SynthesizerSettings.new sr).validate
         = .error (.SampleRateOutOfRange sr)) := by
  refine ⟨rfl, rfl, rfl, rfl, rfl, rfl, rfl, ?_⟩
  intro h
  rw [SynthesizerSettings.validate_eq]
  simp_all [SynthesizerSettings.new, SynthesizerSettings.default]

/-- C10 witness: `new 0` carries the out-of-range sample rate 0 with
default companions, and only `validate` rejects it. -/
theorem claim_C10_new_fields_witness :
    (SynthesizerSettings.new 0).sample_rate = 0 ∧
    (SynthesizerSettings.new 0).validate = .error (.SampleRateOutOfRange 0) :=
  ⟨(claim_C10_new_fields 0).1, (claim_C10_new_fields 0).2.2.2.2.2.2.2 (by decide)⟩

/-- One recorded difference, `SampleDifference` from `src/tests/utils.rs`.
Sample values (`f32` in the source) are embedded as exact rationals: the
claims about the harness concern which buffers it consults, not float
rounding. -/
structure SampleDifference where
  sample_index : Nat
  midix_value : ℚ
  rusty_value : ℚ
  difference : ℚ
deriving Repr, DecidableEq

/-- `ComparisonResult` from `src/tests/utils.rs`. -/
structure ComparisonResult where
  total_samples : Nat
  max_difference : ℚ
  differences : List SampleDifference
  passed : Bool
deriving Repr, DecidableEq

/-- The post-render buffer contents of one `render` call of each
synthesizer: `mleft`/`mright` from the midix synth, `rleft`/`rright` from
the rustysynth reference (fields of `SynthesizerComparison`). -/
structure FrameBuffers where
  mleft : List ℚ
  mright : List ℚ
  rleft : List ℚ
  rright : List ℚ
deriving Repr, DecidableEq

/-- The comparison for-loop shared by `compare_buffers` and
`render_and_compare_frames` (`utils.rs:146-158`, `utils.rs:202-213`):
walk the zipped buffers, record each pair whose absolute difference
exceeds epsilon (with its running sample index), and track the running
maximum difference. -/
def compareLoop (ε : ℚ) : List ℚ → List ℚ → Nat → ℚ →
    List SampleDifference → ℚ × List SampleDifference
  | m :: ms, r :: rs, idx, maxd, acc =>
      let diff := |m - r|
      let acc' := if ε < diff then acc ++ [⟨idx, m, r, diff⟩] else acc
      compareLoop ε ms rs (idx + 1) (max maxd diff) acc'
  | _, _, _, maxd, acc => (maxd, acc)

/-- `SynthesizerComparison::compare_buffers` (`utils.rs:193-223`):
compares one pair of buffers starting at index 0; `passed` holds exactly
when no difference exceeded epsilon. -/
def compare_buffers (midix rusty : List ℚ) (ε : ℚ) : ComparisonResult :=
  let res := compareLoop ε midix rusty 0 0 []
  { total_samples := midix.length
    max_difference := res.1
    differences := res.2
    passed := res.2.isEmpty }

/-- `SynthesizerComparison::render_and_compare` (`utils.rs:125-132`),
taken after the two `render` calls filled the four buffers: it compares
only `mleft` against `rleft`. -/
def render_and_compare (f : FrameBuffers) (ε : ℚ) : ComparisonResult :=
  compare_buffers f.mleft f.rleft ε

/-- The frame loop of `render_and_compare_frames` (`utils.rs:140-176`):
for each rendered frame, compare the left buffers (sample indices based
at `frame_idx * frames_per_render`) and then the right buffers (offset
additionally by `mleft.len()`), threading the running maximum and the
accumulated differences, and counting every compared sample of both
channels. -/
def framesLoop (fpr : Nat) (ε : ℚ) : List FrameBuffers → Nat → ℚ →
    List SampleDifference → Nat → ℚ × List SampleDifference × Nat
  | [], _, maxd, acc, total => (maxd, acc, total)
  | f :: rest, frame_idx, maxd, acc, total =>
      let left := compareLoop ε f.mleft f.rleft (frame_idx * fpr) maxd acc
      let right := compareLoop ε f.mright f.rright
        (frame_idx * fpr + f.mleft.length) left.1 left.2
      framesLoop fpr ε rest (frame_idx + 1) right.1 right.2
        (total + (f.mleft.zip f.rleft).length + (f.mright.zip f.rright).length)

/-- `SynthesizerComparison::render_and_compare_frames`
(`utils.rs:135-190`), taken over the per-frame post-render buffer
contents: both channels of every frame are compared. -/
def render_and_compare_frames (frames : List FrameBuffers) (fpr : Nat)
    (ε : ℚ) : ComparisonResult :=
  let res := framesLoop fpr ε frames 0 0 [] 0
  { total_samples := res.2.2
    max_difference := res.1
    differences := res.2.1
    passed := res.2.1.isEmpty }

example :
    (render_and_compare ⟨[0, 0], [5, 5], [0, 0], [0, 0]⟩ (1/1000)).passed
      = true := by
  simp [render_and_compare, compare_buffers, compareLoop]
  norm_num

example :
    (render_and_compare_frames [⟨[0, 0], [5, 5], [0, 0], [0, 0]⟩] 512
        (1/1000)).passed = false := by
  simp [render_and_compare_frames, framesLoop, compareLoop]
  norm_num
  exact List.cons_ne_nil _ _

/-- Comparing a buffer against itself records nothing and leaves the
running maximum unchanged (every pointwise difference is zero). -/
theorem compareLoop_self (ε : ℚ) (hε : 0 ≤ ε) :
    ∀ (l : List ℚ) (idx : Nat) (maxd : ℚ), 0 ≤ maxd →
      ∀ acc, compareLoop ε l l idx maxd acc = (maxd, acc) := by
  intro l
  induction l with
  | nil => intro idx maxd _ acc; rfl
  | cons m ms ih =>
      intro idx maxd hm acc
      have h0 : |m - m| = (0 : ℚ) := by simp
      simp only [compareLoop, h0]
      rw [if_neg (not_lt.mpr hε), max_eq_left hm]
      exact ih (idx + 1) maxd hm acc

/-- The comparison loop only ever appends to its accumulator. -/
theorem compareLoop_acc_append (ε : ℚ) :
    ∀ (ms rs : List ℚ) (idx : Nat) (maxd : ℚ) (acc : List SampleDifference),
      ∃ extra, (compareLoop ε ms rs idx maxd acc).2 = acc ++ extra := by
  intro ms
  induction ms with
  | nil =>
      intro rs idx maxd acc
      cases rs <;> exact ⟨[], by simp [compareLoop]⟩
  | cons m ms ih =>
      intro rs idx maxd acc
      cases rs with
      | nil => exact ⟨[], by simp [compareLoop]⟩
      | cons r rs' =>
          simp only [compareLoop]
          split_ifs with h
          · obtain ⟨e1, hx⟩ :=
              ih rs' (idx + 1) (max maxd |m - r|) (acc ++ [⟨idx, m, r, |m - r|⟩])
            exact ⟨⟨idx, m, r, |m - r|⟩ :: e1, by rw [hx]; simp⟩
          · exact ih rs' (idx + 1) (max maxd |m - r|) acc

/-- If some zipped pair differs by more than epsilon, the comparison loop
records at least one difference. -/
theorem compareLoop_detects (ε : ℚ) :
    ∀ (ms rs : List ℚ) (idx : Nat) (maxd : ℚ) (acc : List SampleDifference),
      (∃ p ∈ ms.zip rs, ε < |p.1 - p.2|) →
      (compareLoop ε ms rs idx maxd acc).2 ≠ [] := by
  intro ms
  induction ms with
  | nil => intro rs idx maxd acc h; simp at h
  | cons m ms ih =>
      intro rs idx maxd acc h
      cases rs with
      | nil => simp at h
      | cons r rs' =>
          simp only [List.zip_cons_cons, List.mem_cons] at h
          obtain ⟨p, hp, hgt⟩ := h
          rcases hp with rfl | hp
          · have hgt' : ε < |m - r| := hgt
            simp only [compareLoop]
            rw [if_pos hgt']
            obtain ⟨extra, hx⟩ := compareLoop_acc_append ε ms rs' (idx + 1)
              (max maxd |m - r|) (acc ++ [⟨idx, m, r, |m - r|⟩])
            rw [hx]
            simp
          · simp only [compareLoop]
            split_ifs with hh
            · exact ih rs' (idx + 1) (max maxd |m - r|) _ ⟨p, hp, hgt⟩
            · exact ih rs' (idx + 1) (max maxd |m - r|) acc ⟨p, hp, hgt⟩

/-- C9: `render_and_compare` bases its result only on the left-channel
buffers — with equal left buffers it passes with zero maximum difference
whatever the right buffers hold, and its result is unchanged under any
replacement of the right buffers — whereas `render_and_compare_frames`
compares both channels of every frame, so a right-channel difference
beyond epsilon makes it fail. -/
theorem claim_C9_left_channel_only_comparison
    (ml mr rr mr' rr' : List ℚ) (fpr : Nat) (ε : ℚ) (hε : 0 ≤ ε) :
    (render_and_compare ⟨ml, mr, ml, rr⟩ ε).passed = true ∧
    (render_and_compare ⟨ml, mr, ml, rr⟩ ε).max_difference = 0 ∧
    render_and_compare ⟨ml, mr, ml, rr⟩ ε
      = render_and_compare ⟨ml, mr', ml, rr'⟩ ε ∧
    ((∃ p ∈ mr.zip rr, ε < |p.1 - p.2|) →
       (render_and_compare_frames [⟨ml, mr, ml, rr⟩] fpr ε).passed = false) := by
  have hself := compareLoop_self ε hε ml 0 0 le_rfl []
  refine ⟨?_, ?_, rfl, ?_⟩
  · simp [render_and_compare, compare_buffers, hself]
  · simp [render_and_compare, compare_buffers, hself]
  · intro hdiff
    have hselfB := compareLoop_self ε hε ml (0 * fpr) 0 le_rfl []
    have hdet := compareLoop_detects ε mr rr (0 * fpr + ml.length) 0 [] hdiff
    simp only [render_and_compare_frames, framesLoop, hselfB]
    cases hq : (compareLoop ε mr rr (0 * fpr + ml.length) 0 []).2 with
    | nil => exact absurd hq hdet
    | cons a l => simp [hq, List.isEmpty]

/-- C9 witness: with equal left buffers and a right-channel-only
difference of 5 at epsilon 1/1000, `render_and_compare` passes while
`render_and_compare_frames` fails. -/
theorem claim_C9_left_channel_only_comparison_witness :
    0 ≤ (1 / 1000 : ℚ) ∧
    (render_and_compare ⟨[0, 0], [5, 5], [0, 0], [0, 0]⟩ (1 / 1000)).passed
        = true ∧
    (render_and_compare_frames [⟨[0, 0], [5, 5], [0, 0], [0, 0]⟩] 512
        (1 / 1000)).passed = false := by
  have h := claim_C9_left_channel_only_comparison [0, 0] [5, 5] [0, 0] [] []
    512 (1 / 1000) (by norm_num)
  refine ⟨by norm_num, h.1, h.2.2.2 ⟨(5, 0), ?_, by norm_num⟩⟩
  simp

/-- Modelled from the spec: the voice lifecycle stages relevant to
note-off and sustain handling (the channel/voice engine code is not under
`src/`; only `test_sustain_pedal` exercises it).  A sounding voice is
`Playing` with a deferred-release flag; `Release` is the release stage;
`Finished` a reclaimed voice. -/
inductive VoiceStage where
  | Playing (deferredRelease : Bool)
  | Release
  | Finished
deriving Repr, DecidableEq

/-- Modelled from the spec: one voice of the pool, with its note number
and lifecycle stage. -/
structure Voice where
  note : Nat
  stage : VoiceStage
deriving Repr, DecidableEq

/-- Modelled from the spec: the per-channel state consulted by the
note-off policy — the sustain flag (CC64 ≥ 64) and the channel's
sounding voices. -/
structure MidiChannel where
  sustain : Bool
  voices : List Voice
deriving Repr, DecidableEq

/-- Modelled from the spec: the events relevant to sustain semantics. -/
inductive ChannelEvent where
  | NoteOn (note : Nat)
  | NoteOff (note : Nat)
  | ControlChange (controller value : Nat)
deriving Repr, DecidableEq

/-- Modelled from the spec: the note-off policy — "if channel sustain is
on, the voice is flagged deferred-release" (it keeps sounding);
otherwise a sounding voice with the matching note enters its Release
stage. -/
def applyNoteOff (sustain : Bool) (n : Nat) (v : Voice) : Voice :=
  match v.stage with
  | .Playing _ =>
      if v.note = n then
        if sustain then { v with stage := .Playing true }
        else { v with stage := .Release }
      else v
  | _ => v

/-- Modelled from the spec: "on sustain release, all deferred voices
enter their Release stage". -/
def releaseDeferred (v : Voice) : Voice :=
  match v.stage with
  | .Playing true => { v with stage := .Release }
  | _ => v

/-- Modelled from the spec: channel event processing — note-on allocates
a sounding voice, note-off follows the note-off policy, and "CC64
(sustain) when value ≥ 64 enables sustain, else releases deferred
voices". -/
def processEvent (ch : MidiChannel) : ChannelEvent → MidiChannel
  | .NoteOn n => { ch with voices := ch.voices ++ [⟨n, .Playing false⟩] }
  | .NoteOff n => { ch with voices := ch.voices.map (applyNoteOff ch.sustain n) }
  | .ControlChange c val =>
      if c = 64 then
        if 64 ≤ val then { ch with sustain := true }
        else { ch with sustain := false,
                       voices := ch.voices.map releaseDeferred }
      else ch

example :
    processEvent ⟨true, [⟨60, .Playing false⟩]⟩ (.NoteOff 60)
      = ⟨true, [⟨60, .Playing true⟩]⟩ := by decide

example :
    processEvent ⟨true, [⟨60, .Playing true⟩]⟩ (.ControlChange 64 0)
      = ⟨false, [⟨60, .Release⟩]⟩ := by decide

/-- C7: while sustain is on (set by CC64 ≥ 64), a note-off for a sounding
note never moves the note's voice into the Release stage — it stays
`Playing` and, for the matching note, is flagged deferred-release — and
when CC64 later drops below 64, sustain turns off and every deferred
voice on the channel enters its Release stage. -/
theorem claim_C7_sustain_defers_release (ch : MidiChannel) (n : Nat)
    (hs : ch.sustain = true) (val : Nat) (hv : val < 64) :
    (∀ i (hi : i < ch.voices.length)
        (hi' : i < (processEvent ch (.NoteOff n)).voices.length) (d : Bool),
       (ch.voices.get ⟨i, hi⟩).stage = .Playing d →
         ((processEvent ch (.NoteOff n)).voices.get ⟨i, hi'⟩).stage
             ≠ .Release ∧
         ((ch.voices.get ⟨i, hi⟩).note = n →
           ((processEvent ch (.NoteOff n)).voices.get ⟨i, hi'⟩).stage
             = .Playing true)) ∧
    (processEvent ch (.ControlChange 64 val)).sustain = false ∧
    (∀ i (hi : i < ch.voices.length)
        (hi' : i < (processEvent ch (.ControlChange 64 val)).voices.length),
       (ch.voices.get ⟨i, hi⟩).stage = .Playing true →
         ((processEvent ch (.ControlChange 64 val)).voices.get ⟨i, hi'⟩).stage
           = .Release) := by
  have hvle : ¬ 64 ≤ val := Nat.not_le.mpr hv
  refine ⟨?_, ?_, ?_⟩
  · intro i hi hi' d hd
    have hget : (processEvent ch (.NoteOff n)).voices.get ⟨i, hi'⟩
        = applyNoteOff ch.sustain n (ch.voices.get ⟨i, hi⟩) := by
      simp [processEvent]
    rw [hget, hs]
    set v := ch.voices.get ⟨i, hi⟩ with hvdef
    simp only [applyNoteOff, hd]
    split_ifs with hn
    · exact ⟨by simp, fun _ => rfl⟩
    · exact ⟨by simp [hd], fun hcontra => absurd hcontra hn⟩
  · simp [processEvent, hvle]
  · intro i hi hi' hd
    have hget : (processEvent ch (.ControlChange 64 val)).voices.get ⟨i, hi'⟩
        = releaseDeferred (ch.voices.get ⟨i, hi⟩) := by
      simp [processEvent, hvle]
    rw [hget]
    simp only [List.get_eq_getElem] at hd
    simp [releaseDeferred, hd]

/-- C7 witness: a sounding voice for note 60 survives the note-off as a
deferred `Playing` voice while sustain is on, and enters Release once
CC64 drops to 0. -/
theorem claim_C7_sustain_defers_release_witness :
    ((processEvent ⟨true, [⟨60, .Playing false⟩]⟩
        (.NoteOff 60)).voices.get ⟨0, by decide⟩).stage = .Playing true ∧
    (processEvent ⟨true, [⟨60, .Playing true⟩]⟩
        (.ControlChange 64 0)).sustain = false ∧
    ((processEvent ⟨true, [⟨60, .Playing true⟩]⟩
        (.ControlChange 64 0)).voices.get ⟨0, by decide⟩).stage = .Release :=
  ⟨((claim_C7_sustain_defers_release ⟨true, [⟨60, .Playing false⟩]⟩ 60 rfl 0
      (by decide)).1 0 (by decide) (by decide) false rfl).2 rfl,
   (claim_C7_sustain_defers_release ⟨true, [⟨60, .Playing true⟩]⟩ 60 rfl 0
      (by decide)).2.1,
   (claim_C7_sustain_defers_release ⟨true, [⟨60, .Playing true⟩]⟩ 60 rfl 0
      (by decide)).2.2 0 (by decide) (by decide) rfl⟩
